import Mathlib

/-!
Verification of the ScriptifyBackEnd job-execution / collection engine.

This file shallowly embeds the parts of the repository that the stated
properties talk about:

* `apps/scripts/facebook_scraper/scraper.py` — the record accumulator
  (`items_dict`), its flush (`clear_items`) and the per-city loop's
  deduplication checks;
* `apps/scripts/ai_product_analyzer/retry_with_backoff.py` and
  `apps/scripts/facebook_scraper/retry_with_backoff_async.py` — the retry
  primitives and their jittered-backoff wait computation;
* `apps/listings/sp_api_utils.py` — `_parse_offers_response`, the price
  tie-break over an offers payload;
* `apps/scripts/models.py`, `apps/scripts/views.py`, `apps/scripts/tasks.py`,
  `apps/scripts/utils.py` — the `Run` record, the abort endpoint, the task
  orchestrator and the checkpoint writer.

Machine floats are modelled as exact rationals, Python dict-field values by a
small value type with Python truthiness, and fallible statements by `Except`.
-/

namespace Scriptify

/-- A Python scalar value as stored in a scraped item's mutable fields:
`None`, a string, or a number.  `items_dict` values hold such scalars for
`id`, `price`, `currency` and `listed_date`. -/
inductive PyVal where
  | none
  | str (s : String)
  | num (q : ℚ)
  deriving DecidableEq, Repr

/-- Python truthiness of a `PyVal` (`if item.get('price'):` style tests):
`None` and empty strings are falsy, `0` is falsy. -/
def PyVal.truthy : PyVal → Bool
  | .none => false
  | .str s => !s.isEmpty
  | .num q => q != 0

/-- One entry of the scraper's live accumulator `items_dict`
(scraper.py lines 221-230 give the creation template; the response handlers
fill `link`, `title`, `description`, `price`, `currency`, `image_urls`,
`listed_date`).  `link`, `title` and `description` only ever receive string
values in the source, so they are typed as strings here; `price` receives the
string `""` at creation and whatever `listing_price.amount` holds later, so it
keeps the scalar type. -/
structure Item where
  id : PyVal
  link : String
  title : String
  description : String
  price : PyVal
  currency : PyVal
  image_urls : List String
  listed_date : PyVal
  deriving DecidableEq, Repr

/-- The fresh accumulator entry created for a newly interacted listing
(scraper.py lines 221-230): every field empty, `price` the empty string. -/
def fresh_item (link_id : String) : Item :=
  { id := .str link_id
    link := ""
    title := ""
    description := ""
    price := .str ""
    currency := .str ""
    image_urls := []
    listed_date := .none }

/-- The listing URL the detail handler writes into an item
(scraper.py line 77: the marketplace item link built from the listing id). -/
def marketplace_link (item_id : String) : String :=
  "https://www.facebook.com/marketplace/item/" ++ item_id ++ "/"

/-- The completeness filter of `clear_items` (scraper.py lines 115-122): the
list comprehension keeps an item iff `link`, `title`, `description` and
`image_urls` are truthy and `price` is not `None` (note: `is not None`, not
truthiness, so an empty-string price passes). -/
def is_complete_item (item : Item) : Bool :=
  !item.link.isEmpty
    && !item.title.isEmpty
    && !item.description.isEmpty
    && item.price != PyVal.none
    && !item.image_urls.isEmpty

/-- The emission loop of `clear_items` (scraper.py lines 126-135): walk the
complete items with a 1-based index; when the item's link is not yet in
`seen_links`, insert it; then — unconditionally, since the copy/append
statements sit outside the `if` — deep-copy the item, overwrite its `id` with
the index, and append it to the output. -/
def emit_loop : List Item → ℕ → List String → List Item × List String
  | [], _, seen => ([], seen)
  | item :: rest, idx, seen =>
    let seen' := if item.link ∈ seen then seen else seen ++ [item.link]
    let out := emit_loop rest (idx + 1) seen'
    ({ item with id := .num idx } :: out.1, out.2)

/-- `clear_items(items, seen_links)` (scraper.py lines 109-137): returns the
flushed records and the updated job-lifetime seen set (in the source
`seen_links` is mutated in place; here it is threaded explicitly).  Empty
input or no complete item returns `[]` and leaves the seen set untouched. -/
def clear_items (items : List Item) (seen : List String) :
    List Item × List String :=
  if items.isEmpty then ([], seen)
  else
    let complete := items.filter is_complete_item
    if complete.isEmpty then ([], seen)
    else emit_loop complete 1 seen

/-- How the text of a raised exception behaves under the hint-extraction
chain `json.loads(str(e).split(":", 1)[-1].strip())` followed by
`payload.get("refillIn")` and `float(refill_ms)`: the tail after the first
colon may fail to parse as JSON, parse to an object without a numeric
`refillIn`, or yield a numeric `refillIn` (milliseconds). -/
inductive HintParse where
  | notJson
  | jsonWithoutRefill
  | refillIn (ms : ℚ)
  deriving DecidableEq, Repr

/-- The message of an exception raised by a wrapped operation, together with
its behaviour under the hint-extraction chain. -/
structure RetryError where
  msg : String
  hint : HintParse
  deriving DecidableEq, Repr

/-- An exception a statement of the embedded Python can itself raise. -/
inductive PyError where
  /-- raised by an unguarded `json.loads` on input that is not valid JSON -/
  | jsonDecodeError (text : String)
  deriving DecidableEq, Repr

/-- `RetryConfig` (ai_product_analyzer/config.py lines 9-12 and
facebook_scraper/config.py lines 22-25): attempt ceiling and backoff
parameters, defaults 3 / 2.0 s / 60.0 s. -/
structure RetryConfig where
  attempts : ℕ := 3
  backoff_base_sec : ℚ := 2
  backoff_max_sec : ℚ := 60
  deriving DecidableEq, Repr

/-- The jittered exponential backoff wait used when no wait-hint is available
(retry_with_backoff.py lines 35-37 and retry_with_backoff_async.py lines
39-40): `wait = min(backoff_max_sec, backoff_base_sec * 2 ** attempt)` then
`wait = wait * (0.5 + random.random())`, with `rand` standing for the draw of
`random.random()`. -/
def backoff_wait (cfg : RetryConfig) (attempt : ℕ) (rand : ℚ) : ℚ :=
  min cfg.backoff_max_sec (cfg.backoff_base_sec * 2 ^ attempt) * (1 / 2 + rand)

/-- `retry_with_backoff(func)` (ai_product_analyzer/retry_with_backoff.py
lines 11-40), with the successive outcomes of `func()` supplied as a list
whose length is the attempt ceiling `cfg.attempts`, and the running
`error` variable threaded as `lastErr`.  In the `except` handler the source
runs `payload = json.loads(str(e).split(":", 1)[-1].strip())` with no
try/except around it, so a message whose tail is not valid JSON raises a
`json.JSONDecodeError` out of the function (the handler's preceding
`logger.info(error)` even references a name `logger` that this module never
defines; logging statements are elided here, so the first modelled fault is
the unguarded parse).  Sleeps are time-only and elided. -/
def retry_with_backoff {T : Type} :
    List (Except RetryError T) → Option String →
      Except PyError (Bool × Option T × Option String)
  | [], lastErr => .ok (false, none, lastErr)
  | .ok r :: _, _ => .ok (true, some r, none)
  | .error e :: rest, _ =>
    match e.hint with
    | .notJson => .error (.jsonDecodeError e.msg)
    | _ => retry_with_backoff rest (some e.msg)

/-- `retry_with_backoff_async(func)` (facebook_scraper/
retry_with_backoff_async.py lines 14-45), same conventions as
`retry_with_backoff`.  Here the whole hint-extraction chain sits inside a
bare `try`/`except: pass`, so any parse failure just leaves `refill_ms` as
`None` and the loop falls back to the jittered backoff; the function never
raises and after the last attempt returns `(False, None, last error)`. -/
def retry_with_backoff_async {T : Type} :
    List (Except RetryError T) → Option String →
      Bool × Option T × Option String
  | [], lastErr => (false, none, lastErr)
  | .ok r :: _, _ => (true, some r, none)
  | .error e :: rest, _ => retry_with_backoff_async rest (some e.msg)

/-- The `status` column of a `Run` (models.py lines 10-18). -/
inductive RunStatus where
  | PENDING
  | RECEIVED
  | STARTED
  | SUCCESS
  | FAILURE
  | RETRY
  | REVOKED
  deriving DecidableEq, Repr

/-- The `Run` database row (models.py lines 53-81).  File fields are kept as
their stored values: `result_file` stands for the checkpointed result
snapshot the file currently holds, timestamps are abstract instants. -/
structure RunRecord where
  id : ℕ
  script : ℕ
  started_by : Option ℕ
  started_at : Option ℕ
  finished_at : Option ℕ
  status : RunStatus
  celery_task_id : Option String
  input_data : String
  input_file_paths : Option String
  input_schema_snapshot : Option String
  output_schema_snapshot : Option String
  logs_file : String
  result_file : String
  error_message : String
  deriving DecidableEq, Repr

/-- `Run.is_finished` (models.py lines 98-99). -/
def RunRecord.is_finished (r : RunRecord) : Bool :=
  r.status = .SUCCESS || r.status = .FAILURE || r.status = .REVOKED

/-- `Run.is_running` (models.py lines 95-96). -/
def RunRecord.is_running (r : RunRecord) : Bool :=
  r.status = .PENDING || r.status = .RECEIVED || r.status = .STARTED
    || r.status = .RETRY

/-- `RunViewSet.abort` (views.py lines 239-255): a finished run yields a 400
error; otherwise the run's celery task is revoked (a worker signal with no
effect on the stored row, elided here) and exactly `status` and `finished_at`
are reassigned before `run.save()`. -/
def abort (run : RunRecord) (now : ℕ) : Except String RunRecord :=
  if run.is_finished then
    .error "Cannot abort a finished run"
  else
    .ok { run with status := .REVOKED, finished_at := some now }

/-- `ResultWriter.write(payload)` (utils.py lines 48-55): under the writer's
lock, the body `open(...); json.dump(...)` — whose outcome is supplied as
`dump`, an `Except` that errors exactly when the open/write raises — runs
inside `try: ... except Exception as e: self.logger.error(...)`.  The result
is the list of log lines appended, wrapped in `Except` to record whether the
call itself raises to its caller: it never does, the handler swallows every
exception and only logs it. -/
def ResultWriter.write (dump : Except String Unit) (log : List String) :
    Except String (List String) :=
  match dump with
  | .ok _ => .ok log
  | .error e => .ok (log ++ ["ResultWriter write error: " ++ e])

/-- A pipeline that performs its checkpoint writes through
`ResultWriter.write` (as `scrape_city` does at scraper.py lines 167, 219 and
247) and then produces its result: each element of `dumps` is the outcome of
one underlying checkpoint file write.  Because `ResultWriter.write` swallows
failures, the fold never short-circuits and the pipeline returns its result
whatever the write outcomes were. -/
def checkpointed_pipeline (dumps : List (Except String Unit))
    (res : String) : Except String String :=
  match dumps with
  | [] => .ok res
  | d :: rest =>
    match ResultWriter.write d [] with
    | .ok _ => checkpointed_pipeline rest res
    | .error e => .error e

/-- The session state `_async_main` inspects before scraping
(facebook_scraper_main.py lines 96-110): whether `load_cookies` found a
cookies file, and whether `is_logged_in(page)` then reports a live session. -/
structure SessionState where
  cookies_loaded : Bool
  logged_in : Bool
  deriving DecidableEq, Repr

/-- The message raised when cookies load but the session check fails
(facebook_scraper_main.py line 105). -/
def cookies_expired_msg : String :=
  "⚠️  Cookies expired. Contact with your Technical support!"

/-- The message raised when no cookies file loads
(facebook_scraper_main.py line 109). -/
def no_cookies_msg : String :=
  "📝 No cookies found or cookies expired.  Contact with your Technical support!"

/-- The control flow of `FacebookMarketplaceScraper._async_main`
(facebook_scraper_main.py lines 93-158): load cookies and check the session
exactly once; if no cookies load, or they load but `is_logged_in` is false,
raise before the city loop; otherwise run the per-city scraping (supplied
here as `scrape`, whose own per-city errors are caught inside the loop) and
return the accumulated results. -/
def async_main (sess : SessionState) (scrape : Unit → String) :
    Except String String :=
  if sess.cookies_loaded then
    if sess.logged_in then .ok (scrape ())
    else .error cookies_expired_msg
  else .error no_cookies_msg

/-- `execute_script_task` (tasks.py lines 17-75) from the point where the
selected pipeline runs: on normal return the run is saved with status
`SUCCESS` and `finished_at` set (and the final result written); on any
exception the `except` block saves the run with status `FAILURE`, the
exception text as `error_message` and `finished_at` set, then re-raises to
the worker framework.  The earlier `RECEIVED`/`STARTED` transitions touch
only `status`/`celery_task_id` and are elided. -/
def execute_script_task (run : RunRecord) (now : ℕ)
    (pipeline : Except String String) : RunRecord :=
  match pipeline with
  | .ok res =>
    { run with status := .SUCCESS, finished_at := some now,
               result_file := res }
  | .error e =>
    { run with status := .FAILURE, error_message := e,
               finished_at := some now }

/-- Python's `str.lower()` as used on condition tags
(`lp.get('condition', '').lower()`): character-wise lower-casing. -/
def py_lower (s : String) : String :=
  String.mk (s.data.map Char.toLower)

/-- A `Money` object of the offers payload after `_parse_money`
(sp_api_utils.py lines 303-305): `float(money.get('Amount', 0))` and
`money.get('CurrencyCode', '')`, so both fields are present with their
defaults already applied. -/
structure Money where
  Amount : ℚ
  CurrencyCode : String
  deriving DecidableEq, Repr

/-- An entry of `Summary.LowestPrices` or `Summary.BuyBoxPrices`: a condition
tag and a landed price. -/
structure PriceEntry where
  condition : String
  LandedPrice : Money
  deriving DecidableEq, Repr

/-- An entry of the `Offers` array, with the fields
`_parse_offers_response` reads: sub-condition tag, listing price, shipping,
seller id (`''` when absent) and the buy-box flag. -/
structure Offer where
  SubCondition : String
  ListingPrice : Money
  Shipping : Money
  SellerId : String
  IsBuyBoxWinner : Bool
  deriving DecidableEq, Repr

/-- The parts of an offers payload `_parse_offers_response` inspects. -/
structure OffersPayload where
  LowestPrices : List PriceEntry
  BuyBoxPrices : List PriceEntry
  Offers : List Offer
  deriving DecidableEq, Repr

/-- The landed price of an individual offer
(sp_api_utils.py lines 355-357 and 385-387): listing price plus shipping. -/
def landed (o : Offer) : ℚ :=
  o.ListingPrice.Amount + o.Shipping.Amount

/-- The update condition of one phase-1 iteration of
`_parse_offers_response`: `0 <= landed_amt < min_price_landed`, with the
accumulator `none` playing the role of the initial `float('inf')`. -/
def scan_better (acc : Option (ℚ × String)) (l : ℚ) : Bool :=
  decide (0 ≤ l)
    && (match acc with
        | none => true
        | some mc => decide (l < mc.1))

/-- One minimum-tracking loop of phase 1 of `_parse_offers_response`
(sp_api_utils.py lines 328-365): walk candidate `(landed, currency)` pairs
in order, replacing the current best exactly when `scan_better` holds. -/
def scan_min : List (ℚ × String) → Option (ℚ × String) → Option (ℚ × String)
  | [], acc => acc
  | (l, c) :: rest, acc =>
    if scan_better acc l then scan_min rest (some (l, c))
    else scan_min rest acc

/-- The candidates a `LowestPrices`/`BuyBoxPrices` loop considers: entries
whose `condition` lower-cases to `"new"`, each contributing its
`LandedPrice` amount and currency (sp_api_utils.py lines 328-350). -/
def price_entry_cands (entries : List PriceEntry) : List (ℚ × String) :=
  (entries.filter (fun e => py_lower e.condition == "new")).map
    (fun e => (e.LandedPrice.Amount, e.LandedPrice.CurrencyCode))

/-- The candidates the `Offers` loop of phase 1 considers: offers whose
`SubCondition` lower-cases to `"new"`, each contributing its landed price and
its `ListingPrice` currency (sp_api_utils.py lines 353-361). -/
def offer_cands (offers : List Offer) : List (ℚ × String) :=
  (offers.filter (fun o => py_lower o.SubCondition == "new")).map
    (fun o => (landed o, o.ListingPrice.CurrencyCode))

/-- Phase 1 of `_parse_offers_response`: the three loops threaded in source
order — `LowestPrices`, then `BuyBoxPrices`, then `Offers` — starting from
`float('inf')` (`none`). -/
def min_price_scan (payload : OffersPayload) : Option (ℚ × String) :=
  scan_min (offer_cands payload.Offers)
    (scan_min (price_entry_cands payload.BuyBoxPrices)
      (scan_min (price_entry_cands payload.LowestPrices) none))

/-- All landed prices of condition-"new" candidates across the three price
collections, in scan order (specification-side view of phase 1's input). -/
def new_landed_candidates (payload : OffersPayload) : List ℚ :=
  (price_entry_cands payload.LowestPrices).map Prod.fst
    ++ (price_entry_cands payload.BuyBoxPrices).map Prod.fst
    ++ (offer_cands payload.Offers).map Prod.fst

/-- Python's `round` is round-half-to-even; on exact halves it picks the even
neighbour, elsewhere the nearest integer. -/
def round_half_even (q : ℚ) : ℤ :=
  if q - ⌊q⌋ = 1 / 2 then (if 2 ∣ ⌊q⌋ then ⌊q⌋ else ⌊q⌋ + 1)
  else round q

/-- `round(x, 2)` on an exact rational. -/
def py_round2 (q : ℚ) : ℚ :=
  (round_half_even (q * 100) : ℚ) / 100

/-- The `offer_url` built into the selected offer's data
(sp_api_utils.py lines 373-375 and 397-399): a seller storefront link when
`SellerId` is non-empty, else `None`. -/
def offer_url (asin : String) (o : Offer) : Option String :=
  if o.SellerId.isEmpty then none
  else some ("https://www.amazon.de/dp/" ++ asin ++ "?m=" ++ o.SellerId)

/-- The floating-point comparison tolerance of phase 2
(sp_api_utils.py line 368). -/
def tolerance : ℚ := 1 / 1000000000

/-- First pass of phase 2 (sp_api_utils.py lines 370-390): among "new"
offers whose landed price is within `tolerance` of the minimum, keep the
first match, replace it by any later buy-box winner, and stop at the first
buy-box winner. -/
def first_pass (asin : String) (m : ℚ) :
    List Offer → Option (Option String) → Option (Option String)
  | [], acc => acc
  | o :: rest, acc =>
    if py_lower o.SubCondition == "new"
        && decide (|landed o - m| ≤ tolerance) then
      if o.IsBuyBoxWinner then some (offer_url asin o)
      else if acc.isNone then first_pass asin m rest (some (offer_url asin o))
      else first_pass asin m rest acc
    else first_pass asin m rest acc

/-- Fallback pass of phase 2 (sp_api_utils.py lines 392-401): among "new"
offers, track the smallest landed price that is `>= min_price_landed`
(`closest` starts at `float('inf')`, modelled `none`) and keep the offer
data of the last improvement. -/
def second_pass (asin : String) (m : ℚ) :
    List Offer → Option ℚ → Option (Option String) → Option (Option String)
  | [], _, acc => acc
  | o :: rest, closest, acc =>
    if py_lower o.SubCondition == "new" then
      if decide (m ≤ landed o)
          && (match closest with
              | none => true
              | some c => decide (landed o < c)) then
        second_pass asin m rest (some (landed o)) (some (offer_url asin o))
      else second_pass asin m rest closest acc
    else second_pass asin m rest closest acc

/-- The parsed pricing result (the three fields of the returned dict the
claims are about; `cheapest_offer` holds the selected offer's `offer_url`
when an offer was selected). -/
structure PricingResult where
  min_price : Option ℚ
  currency : Option String
  cheapest_offer : Option (Option String)
  deriving DecidableEq, Repr

/-- `_parse_offers_response(asin_value, payload)`
(sp_api_utils.py lines 308-431): phase 1 computes the global minimum landed
price over condition-"new" candidates of all three collections; if none is
found every field is `None`; otherwise the minimum is rounded to 2 decimals,
and phase 2 selects the matching offer — the tolerance pass first, the
closest-at-or-above fallback if it found nothing. -/
def _parse_offers_response (asin : String) (payload : OffersPayload) :
    PricingResult :=
  match min_price_scan payload with
  | none => { min_price := none, currency := none, cheapest_offer := none }
  | some mc =>
    let first := first_pass asin mc.1 payload.Offers none
    let cheapest :=
      match first with
      | some d => some d
      | none => second_pass asin mc.1 payload.Offers none none
    { min_price := some (py_round2 mc.1)
      currency := some mc.2
      cheapest_offer := cheapest }

/-! Concrete inputs used by the counterexamples and witnesses below. -/

/-- A fully-populated accumulator entry for listing id 101. -/
def drained_item : Item :=
  { fresh_item "101" with
      link := marketplace_link "101"
      title := "Bike"
      description := "A good bike"
      price := .str "120"
      image_urls := ["https://img.example/1.jpg"] }

/-- A fully-populated accumulator entry for listing id 123, as assembled by
the response handlers when the same listing is encountered again by a later
city of the same Run. -/
def cross_city_item : Item :=
  { fresh_item "123" with
      link := marketplace_link "123"
      title := "Sofa"
      description := "A blue sofa"
      price := .str "60"
      image_urls := ["https://img.example/2.jpg"] }

/-- An accumulator entry whose details never delivered a price: every other
required field is populated, `price` still holds the creation-template value
`""` (scraper.py line 227; extractors.py line 254 also stores `""` when
`listing_price.amount` is absent). -/
def priceless_item : Item :=
  { fresh_item "77" with
      link := marketplace_link "77"
      title := "Lamp"
      description := "A desk lamp"
      image_urls := ["https://img.example/3.jpg"] }

/-- A fully-populated accumulator entry for listing id 202. -/
def gated_item : Item :=
  { fresh_item "202" with
      link := marketplace_link "202"
      title := "Table"
      description := "A wooden table"
      price := .str "45"
      image_urls := ["https://img.example/4.jpg"] }

/-- The spec's tie-break example, first candidate: price 19.99, condition
"new", not the buy-box winner, seller A. -/
def example_offer_plain : Offer :=
  { SubCondition := "new"
    ListingPrice := { Amount := 1999 / 100, CurrencyCode := "EUR" }
    Shipping := { Amount := 0, CurrencyCode := "EUR" }
    SellerId := "A"
    IsBuyBoxWinner := false }

/-- The spec's tie-break example, second candidate: price 17.50, condition
"used", seller C. -/
def example_offer_used : Offer :=
  { SubCondition := "used"
    ListingPrice := { Amount := 1750 / 100, CurrencyCode := "EUR" }
    Shipping := { Amount := 0, CurrencyCode := "EUR" }
    SellerId := "C"
    IsBuyBoxWinner := false }

/-- The spec's tie-break example, third candidate: price 19.99, condition
"new", flagged as the buy-box winner, seller B. -/
def example_offer_buybox : Offer :=
  { SubCondition := "new"
    ListingPrice := { Amount := 1999 / 100, CurrencyCode := "EUR" }
    Shipping := { Amount := 0, CurrencyCode := "EUR" }
    SellerId := "B"
    IsBuyBoxWinner := true }

/-- The spec's tie-break example payload: the three candidates above in the
`Offers` array, no summary price collections. -/
def example_payload : OffersPayload :=
  { LowestPrices := []
    BuyBoxPrices := []
    Offers := [example_offer_plain, example_offer_used, example_offer_buybox] }

/-- A Run row mid-execution: STARTED, a checkpointed snapshot on disk, no
finish timestamp. -/
def started_run : RunRecord :=
  { id := 7
    script := 2
    started_by := some 1
    started_at := some 100
    finished_at := none
    status := .STARTED
    celery_task_id := some "task-7"
    input_data := "cities: berlin, hamburg"
    input_file_paths := none
    input_schema_snapshot := none
    output_schema_snapshot := none
    logs_file := "runs/logs/7.log"
    result_file := "last-checkpoint-snapshot"
    error_message := "" }

/-- A second mid-execution Run row, used by the orchestrator witness. -/
def started_run_b : RunRecord :=
  { started_run with id := 8, celery_task_id := some "task-8" }

/-! Helper lemmas about the flush loop. -/

/-- The records `emit_loop` outputs do not depend on the seen set: the
`if link not in seen_links` test only updates the set, never the output. -/
theorem emit_loop_fst_seen_independent (items : List Item) (idx : ℕ)
    (seen seen' : List String) :
    (emit_loop items idx seen).1 = (emit_loop items idx seen').1 := by
  induction items generalizing idx seen seen' with
  | nil => rfl
  | cons a rest ih =>
    simp only [emit_loop]
    exact congrArg _ (ih _ _ _)

/-- Every record `emit_loop` outputs is one of its input items with only the
`id` field reassigned. -/
theorem emit_loop_mem {r : Item} :
    ∀ (items : List Item) (idx : ℕ) (seen : List String),
      r ∈ (emit_loop items idx seen).1 →
      ∃ i ∈ items, ∃ k : ℕ, r = { i with id := .num k } := by
  intro items
  induction items with
  | nil => intro idx seen h; simp [emit_loop] at h
  | cons a rest ih =>
    intro idx seen h
    simp only [emit_loop, List.mem_cons] at h
    rcases h with h | h
    · exact ⟨a, List.mem_cons_self a rest, idx, h⟩
    · obtain ⟨i, hi, k, hk⟩ := ih _ _ h
      exact ⟨i, List.mem_cons_of_mem a hi, k, hk⟩

/-- C2: evaluation at the failing input.  Three attempts (the default
ceiling) each raise an error whose message `"boom"` does not parse as a
retry-after hint.  The sync primitive `retry_with_backoff` itself raises
(the unguarded `json.loads` of the hint chain) instead of falling back to
backoff, while the async primitive `retry_with_backoff_async` returns
`(False, None, "boom")` as the claim demands. -/
theorem retry_malformed_hint_sync_raises :
    retry_with_backoff (T := Unit)
        (List.replicate 3 (Except.error { msg := "boom", hint := .notJson }))
        none
      = Except.error (.jsonDecodeError "boom") ∧
    retry_with_backoff_async (T := Unit)
        (List.replicate 3 (Except.error { msg := "boom", hint := .notJson }))
        none
      = (false, none, some "boom") :=
  ⟨rfl, rfl⟩

/-- C3: evaluation at the failing input.  The listing with id 123 is fully
assembled in two different cities of one Run.  The first city's flush emits
it and records its link; the per-city duplicate check of `scrape_city`
(scraper.py line 211) then looks up the raw id `"123"` in the seen set —
which holds full URLs, so it misses — and the second city's flush emits the
very same listing again even though its link is in the seen set, because the
append in `clear_items` is not guarded by the `if link not in seen_links`
test.  The final result set thus carries the key twice. -/
theorem seen_set_does_not_prevent_duplicate_emission :
    (((clear_items [cross_city_item] []).1
          ++ (clear_items [cross_city_item]
                (clear_items [cross_city_item] []).2).1).countP
        (fun r => r.link == marketplace_link "123")) = 2 ∧
    ((clear_items [cross_city_item] []).2.contains "123") = false ∧
    ((clear_items [cross_city_item] []).2.contains
        (marketplace_link "123")) = true := by
  decide

/-- C4: counterexample.  With one complete record in the live store, draining
twice in a row with no intervening upsert returns that record both times —
the second drain is not empty, because `clear_items` never removes anything
from the store it drains (the store is only emptied by the end-of-city
`items_dict.clear()`). -/
theorem second_drain_returns_same_records :
    (clear_items [drained_item]
        (clear_items [drained_item] []).2).1
      = [{ drained_item with id := .num 1 }] ∧
    (clear_items [drained_item]
        (clear_items [drained_item] []).2).1 ≠ [] := by
  decide

/-- C4 (amended): `clear_items` is a pure filter over the live store — it
removes nothing from it — so draining twice in a row with no intervening
upsert yields the *same* record list both times (rather than an empty second
result); only the end-of-city `items_dict.clear()` empties the store. -/
theorem drain_twice_yields_equal_output (items : List Item)
    (seen : List String) :
    (clear_items items (clear_items items seen).2).1
      = (clear_items items seen).1 := by
  unfold clear_items
  by_cases h1 : items.isEmpty
  · simp [h1]
  · by_cases h2 : (items.filter is_complete_item).isEmpty
    · simp [h1, h2]
    · simp only [h1, h2, if_false, if_neg]
      exact emit_loop_fst_seen_independent _ _ _ _

/-- C6: counterexample.  `priceless_item` has a non-empty link, title,
description and one image, but its `price` field still holds the empty
string the creation template put there — the price is missing/empty — yet
`clear_items` returns it, because the gate checks `price is not None`
rather than non-emptiness. -/
theorem flush_returns_record_with_empty_price :
    (clear_items [priceless_item] []).1
      = [{ priceless_item with id := .num 1 }] ∧
    priceless_item.price = .str "" := by
  decide

/-- C6 (amended): every record returned by `clear_items` has a non-empty
link, title and description, at least one image, and a price that is not
`None` — but the price is only required to be non-`None`: an empty-string
price passes the gate. -/
theorem clear_items_completeness_gate (items : List Item)
    (seen : List String) (r : Item)
    (h : r ∈ (clear_items items seen).1) :
    r.link ≠ "" ∧ r.title ≠ "" ∧ r.description ≠ "" ∧
      r.price ≠ PyVal.none ∧ r.image_urls ≠ [] := by
  unfold clear_items at h
  by_cases h1 : items.isEmpty
  · simp [h1] at h
  · by_cases h2 : (items.filter is_complete_item).isEmpty
    · simp [h1, h2] at h
    · simp only [h1, h2, if_false, if_neg] at h
      obtain ⟨i, hi, k, rfl⟩ := emit_loop_mem _ _ _ h
      have hc : is_complete_item i = true := List.of_mem_filter hi
      unfold is_complete_item at hc
      simp only [Bool.and_eq_true, Bool.not_eq_true'] at hc
      obtain ⟨⟨⟨⟨hlink, htitle⟩, hdesc⟩, hprice⟩, himg⟩ := hc
      refine ⟨?_, ?_, ?_, ?_, ?_⟩
      · intro he; rw [show ({ i with id := .num k } : Item).link = i.link from rfl] at he
        rw [he] at hlink; exact absurd hlink (by decide)
      · intro he; rw [show ({ i with id := .num k } : Item).title = i.title from rfl] at he
        rw [he] at htitle; exact absurd htitle (by decide)
      · intro he; rw [show ({ i with id := .num k } : Item).description = i.description from rfl] at he
        rw [he] at hdesc; exact absurd hdesc (by decide)
      · intro he; rw [show ({ i with id := .num k } : Item).price = i.price from rfl] at he
        rw [he] at hprice; exact absurd hprice (by decide)
      · intro he; rw [show ({ i with id := .num k } : Item).image_urls = i.image_urls from rfl] at he
        rw [he] at himg; exact absurd himg (by decide)

/-- C6 (amended) witness: the gate theorem applied to a concrete drain. -/
theorem clear_items_completeness_gate_witness :
    ({ gated_item with id := PyVal.num 1 }
        ∈ (clear_items [gated_item] []).1) ∧
      (({ gated_item with id := PyVal.num 1 } : Item).link ≠ "" ∧
        ({ gated_item with id := PyVal.num 1 } : Item).title ≠ "" ∧
        ({ gated_item with id := PyVal.num 1 } : Item).description ≠ "" ∧
        ({ gated_item with id := PyVal.num 1 } : Item).price ≠ PyVal.none ∧
        ({ gated_item with id := PyVal.num 1 } : Item).image_urls ≠ []) :=
  ⟨by decide,
    clear_items_completeness_gate [gated_item] [] _ (by decide)⟩

/-- C7: for every Run whose session is invalid — cookies missing, or loaded
but expired — `_async_main` raises its human-readable message before any
city is scraped (the scraping function is never consulted), and the
orchestrator `execute_script_task` persists that message and the terminal
FAILURE status with `finished_at` set; the Run does not end SUCCESS with an
empty result. -/
theorem invalid_session_fails_run (run : RunRecord) (now : ℕ)
    (sess : SessionState) (scrape : Unit → String)
    (h : sess.cookies_loaded = false ∨ sess.logged_in = false) :
    async_main sess scrape =
        .error (if sess.cookies_loaded then cookies_expired_msg
                else no_cookies_msg) ∧
      (execute_script_task run now (async_main sess scrape)).status
          = .FAILURE ∧
      (execute_script_task run now (async_main sess scrape)).error_message
          = (if sess.cookies_loaded then cookies_expired_msg
             else no_cookies_msg) ∧
      (execute_script_task run now (async_main sess scrape)).error_message
          ≠ "" ∧
      (execute_script_task run now (async_main sess scrape)).finished_at
          = some now ∧
      (execute_script_task run now (async_main sess scrape)).status
          ≠ .SUCCESS := by
  obtain ⟨cl, li⟩ := sess
  cases cl with
  | false =>
    refine ⟨rfl, rfl, rfl, ?_, rfl, ?_⟩
    · show ¬(no_cookies_msg = "")
      decide
    · show ¬(RunStatus.FAILURE = RunStatus.SUCCESS)
      decide
  | true =>
    rcases h with h | h
    · exact Bool.noConfusion h
    · have h' : li = false := h
      subst h'
      refine ⟨rfl, rfl, rfl, ?_, rfl, ?_⟩
      · show ¬(cookies_expired_msg = "")
        decide
      · show ¬(RunStatus.FAILURE = RunStatus.SUCCESS)
        decide

/-- C7 witness: a concrete STARTED run with cookies that load but whose
session check fails. -/
theorem invalid_session_fails_run_witness :
    ((⟨true, false⟩ : SessionState).cookies_loaded = false ∨
        (⟨true, false⟩ : SessionState).logged_in = false) ∧
      (async_main ⟨true, false⟩ (fun _ => "scraped") =
          .error (if (⟨true, false⟩ : SessionState).cookies_loaded
                  then cookies_expired_msg else no_cookies_msg) ∧
        (execute_script_task started_run_b 5
            (async_main ⟨true, false⟩ (fun _ => "scraped"))).status
            = .FAILURE ∧
        (execute_script_task started_run_b 5
            (async_main ⟨true, false⟩ (fun _ => "scraped"))).error_message
            = (if (⟨true, false⟩ : SessionState).cookies_loaded
               then cookies_expired_msg else no_cookies_msg) ∧
        (execute_script_task started_run_b 5
            (async_main ⟨true, false⟩ (fun _ => "scraped"))).error_message
            ≠ "" ∧
        (execute_script_task started_run_b 5
            (async_main ⟨true, false⟩ (fun _ => "scraped"))).finished_at
            = some 5 ∧
        (execute_script_task started_run_b 5
            (async_main ⟨true, false⟩ (fun _ => "scraped"))).status
            ≠ .SUCCESS) :=
  ⟨Or.inr rfl,
    invalid_session_fails_run started_run_b 5 ⟨true, false⟩
      (fun _ => "scraped") (Or.inr rfl)⟩

/-- C8: for every attempt index and every jitter draw
`rand = random.random() ∈ [0, 1)`, the computed no-hint wait lies in
`[m * 0.5, m * 1.5]` where `m = min(max_backoff, base * 2 ^ attempt)` — the
exponential envelope capped at `max_backoff` before the jitter factor
`0.5 + rand` is applied. -/
theorem backoff_wait_bounds (cfg : RetryConfig) (attempt : ℕ) (rand : ℚ)
    (hbase : 0 ≤ cfg.backoff_base_sec) (hmax : 0 ≤ cfg.backoff_max_sec)
    (h0 : 0 ≤ rand) (h1 : rand < 1) :
    min cfg.backoff_max_sec (cfg.backoff_base_sec * 2 ^ attempt) * (1 / 2)
        ≤ backoff_wait cfg attempt rand ∧
      backoff_wait cfg attempt rand
        ≤ min cfg.backoff_max_sec (cfg.backoff_base_sec * 2 ^ attempt)
            * (3 / 2) := by
  have hm : (0 : ℚ)
      ≤ min cfg.backoff_max_sec (cfg.backoff_base_sec * 2 ^ attempt) :=
    le_min hmax (mul_nonneg hbase (by positivity))
  unfold backoff_wait
  constructor
  · exact mul_le_mul_of_nonneg_left (by linarith) hm
  · exact mul_le_mul_of_nonneg_left (by linarith) hm

/-- C8 witness: the default config (3 attempts, base 2 s, cap 60 s), attempt
index 1, jitter draw 1/3. -/
theorem backoff_wait_bounds_witness :
    ((0 : ℚ) ≤ 2 ∧ (0 : ℚ) ≤ 60 ∧ (0 : ℚ) ≤ 1 / 3 ∧ (1 / 3 : ℚ) < 1) ∧
      (min (60 : ℚ) (2 * 2 ^ 1) * (1 / 2)
          ≤ backoff_wait ⟨3, 2, 60⟩ 1 (1 / 3) ∧
        backoff_wait ⟨3, 2, 60⟩ 1 (1 / 3)
          ≤ min (60 : ℚ) (2 * 2 ^ 1) * (3 / 2)) :=
  ⟨⟨by norm_num, by norm_num, by norm_num, by norm_num⟩,
    backoff_wait_bounds ⟨3, 2, 60⟩ 1 (1 / 3) (by norm_num) (by norm_num)
      (by norm_num) (by norm_num)⟩

/-- C9: aborting a non-finished Run succeeds and only flips `status` to
REVOKED and sets `finished_at`; every other stored field — in particular the
checkpointed result snapshot (`result_file`) and the input — is left
unchanged, so the Run ends REVOKED with the last checkpoint intact. -/
theorem abort_frame_effect (run : RunRecord) (now : ℕ)
    (h : run.is_finished = false) :
    abort run now
        = .ok { run with status := .REVOKED, finished_at := some now } ∧
      ∀ r', abort run now = .ok r' →
        r'.status = .REVOKED ∧ r'.finished_at = some now ∧
          r'.result_file = run.result_file ∧
          r'.input_data = run.input_data ∧
          r'.input_file_paths = run.input_file_paths ∧
          r'.input_schema_snapshot = run.input_schema_snapshot ∧
          r'.output_schema_snapshot = run.output_schema_snapshot ∧
          r'.started_at = run.started_at ∧
          r'.started_by = run.started_by ∧
          r'.error_message = run.error_message ∧
          r'.celery_task_id = run.celery_task_id ∧
          r'.logs_file = run.logs_file ∧
          r'.id = run.id ∧ r'.script = run.script := by
  have habort : abort run now
      = .ok { run with status := .REVOKED, finished_at := some now } := by
    unfold abort
    rw [h]
    rfl
  refine ⟨habort, ?_⟩
  intro r' hr'
  rw [habort] at hr'
  cases hr'
  exact ⟨rfl, rfl, rfl, rfl, rfl, rfl, rfl, rfl, rfl, rfl, rfl, rfl, rfl,
    rfl⟩

/-- C9 witness: aborting the concrete STARTED run at time 200. -/
theorem abort_frame_effect_witness :
    started_run.is_finished = false ∧
      (abort started_run 200
          = .ok { started_run with
                    status := .REVOKED, finished_at := some 200 } ∧
        ∀ r', abort started_run 200 = .ok r' →
          r'.status = .REVOKED ∧ r'.finished_at = some 200 ∧
            r'.result_file = started_run.result_file ∧
            r'.input_data = started_run.input_data ∧
            r'.input_file_paths = started_run.input_file_paths ∧
            r'.input_schema_snapshot = started_run.input_schema_snapshot ∧
            r'.output_schema_snapshot = started_run.output_schema_snapshot ∧
            r'.started_at = started_run.started_at ∧
            r'.started_by = started_run.started_by ∧
            r'.error_message = started_run.error_message ∧
            r'.celery_task_id = started_run.celery_task_id ∧
            r'.logs_file = started_run.logs_file ∧
            r'.id = started_run.id ∧ r'.script = started_run.script) :=
  ⟨rfl, abort_frame_effect started_run 200 rfl⟩

/-- A checkpointed pipeline always reaches its normal return: every
checkpoint write goes through `ResultWriter.write`, whose catch-all handler
swallows the failure. -/
theorem checkpointed_pipeline_ok (dumps : List (Except String Unit))
    (res : String) : checkpointed_pipeline dumps res = .ok res := by
  induction dumps with
  | nil => rfl
  | cons d rest ih => cases d <;> simpa [checkpointed_pipeline,
      ResultWriter.write] using ih

/-- C10: `ResultWriter.write` never raises to its caller — for every outcome
of the underlying open/dump it returns normally, and on failure it only
appends a log line — so a pipeline whose checkpoint writes all fail still
runs to completion and the orchestrator still marks the Run SUCCESS even
though no snapshot was persisted. -/
theorem result_writer_silent_failure :
    (∀ (dump : Except String Unit) (log : List String),
        (ResultWriter.write dump log).isOk = true) ∧
      (∀ (e : String) (log : List String),
        ResultWriter.write (.error e) log
          = .ok (log ++ ["ResultWriter write error: " ++ e])) ∧
      ∀ (run : RunRecord) (now : ℕ) (dumps : List (Except String Unit))
        (res : String),
        (execute_script_task run now
            (checkpointed_pipeline dumps res)).status = .SUCCESS := by
  refine ⟨?_, ?_, ?_⟩
  · intro dump log; cases dump <;> rfl
  · intro e log; rfl
  · intro run now dumps res
    rw [checkpointed_pipeline_ok]
    rfl

/-- Scanning a concatenation is scanning the second list from the first
list's result: phase 1's three loops are one scan over all candidates. -/
theorem scan_min_append (xs ys : List (ℚ × String))
    (acc : Option (ℚ × String)) :
    scan_min (xs ++ ys) acc = scan_min ys (scan_min xs acc) := by
  induction xs generalizing acc with
  | nil => rfl
  | cons p rest ih =>
    obtain ⟨l, c⟩ := p
    simp only [List.cons_append, scan_min]
    by_cases hcond : scan_better acc l = true
    · simp only [if_pos hcond]; exact ih _
    · simp only [if_neg hcond]; exact ih _

/-- `scan_better` unpacked: non-negative and strictly below the current
best, if any. -/
theorem scan_better_eq_true (acc : Option (ℚ × String)) (l : ℚ) :
    scan_better acc l = true
      ↔ (0 ≤ l ∧ ∀ mc, acc = some mc → l < mc.1) := by
  cases acc with
  | none => simp [scan_better]
  | some mc => simp [scan_better]

/-- `scan_min` computes the first-encountered minimum of the non-negative
candidates: starting from a non-negative accumulator, the result is `none`
only when nothing qualifies, and otherwise a non-negative candidate (or the
starting accumulator) that is a lower bound of every non-negative candidate
and of the starting accumulator. -/
theorem scan_min_spec (xs : List (ℚ × String)) (acc : Option (ℚ × String))
    (hacc : ∀ m0, acc = some m0 → 0 ≤ m0.1) :
    match scan_min xs acc with
    | none => acc = none ∧ ∀ p ∈ xs, ¬ 0 ≤ p.1
    | some mc =>
        0 ≤ mc.1 ∧ (mc ∈ xs ∨ acc = some mc) ∧
          (∀ p ∈ xs, 0 ≤ p.1 → mc.1 ≤ p.1) ∧
          (∀ m0, acc = some m0 → mc.1 ≤ m0.1) := by
  induction xs generalizing acc with
  | nil =>
    cases acc with
    | none => exact ⟨rfl, by simp⟩
    | some m0 =>
      refine ⟨hacc m0 rfl, Or.inr rfl, by simp, ?_⟩
      intro m1 h1
      cases h1
      exact le_refl _
  | cons p rest ih =>
    obtain ⟨l, c⟩ := p
    by_cases hcond : scan_better acc l = true
    · obtain ⟨h0, hlt⟩ := (scan_better_eq_true acc l).mp hcond
      have hstep : scan_min ((l, c) :: rest) acc
          = scan_min rest (some (l, c)) := by
        simp only [scan_min, if_pos hcond]
      rw [hstep]
      have ih' := ih (some (l, c)) (by intro m0 hm0; cases hm0; exact h0)
      cases hscan : scan_min rest (some (l, c)) with
      | none =>
        rw [hscan] at ih'
        exact absurd ih'.1 (by simp)
      | some mc =>
        rw [hscan] at ih'
        obtain ⟨hmc0, hmem, hmin, hle⟩ := ih'
        have hlemc : mc.1 ≤ l := hle (l, c) rfl
        refine ⟨hmc0, ?_, ?_, ?_⟩
        · rcases hmem with hm | hm
          · exact Or.inl (List.mem_cons_of_mem _ hm)
          · cases hm
            exact Or.inl (List.mem_cons_self _ _)
        · intro q hq hq0
          rcases List.mem_cons.mp hq with rfl | hq'
          · exact hlemc
          · exact hmin q hq' hq0
        · intro m0 hm0
          exact le_trans hlemc (le_of_lt (hlt m0 hm0))
    · have hnot : ¬ (0 ≤ l ∧ ∀ mc, acc = some mc → l < mc.1) :=
        fun h => hcond ((scan_better_eq_true acc l).mpr h)
      have hstep : scan_min ((l, c) :: rest) acc = scan_min rest acc := by
        simp only [scan_min, if_neg hcond]
      rw [hstep]
      have ih' := ih acc hacc
      cases hscan : scan_min rest acc with
      | none =>
        rw [hscan] at ih'
        obtain ⟨haccnone, hall⟩ := ih'
        subst haccnone
        have h0 : ¬ (0 : ℚ) ≤ l := by
          intro hc
          exact hnot ⟨hc, by intro mc h; cases h⟩
        refine ⟨rfl, ?_⟩
        intro q hq
        rcases List.mem_cons.mp hq with rfl | hq'
        · exact h0
        · exact hall q hq'
      | some mc =>
        rw [hscan] at ih'
        obtain ⟨hmc0, hmem, hmin, hle⟩ := ih'
        refine ⟨hmc0, ?_, ?_, hle⟩
        · rcases hmem with hm | hm
          · exact Or.inl (List.mem_cons_of_mem _ hm)
          · exact Or.inr hm
        · intro q hq hq0
          rcases List.mem_cons.mp hq with rfl | hq'
          · cases hacc' : acc with
            | none =>
              exfalso
              exact hnot ⟨hq0, by intro m0 h; rw [hacc'] at h; cases h⟩
            | some m0 =>
              have hm0le : m0.1 ≤ l := by
                by_contra hgt
                refine hnot ⟨hq0, ?_⟩
                intro m1 h1
                rw [hacc'] at h1
                cases h1
                exact lt_of_not_le hgt
              exact le_trans (hle m0 hacc') hm0le
          · exact hmin q hq' hq0

/-- Phase 1 equals one scan over the concatenated candidate lists. -/
theorem min_price_scan_eq_concat (payload : OffersPayload) :
    min_price_scan payload
      = scan_min (price_entry_cands payload.LowestPrices
            ++ price_entry_cands payload.BuyBoxPrices
            ++ offer_cands payload.Offers) none := by
  unfold min_price_scan
  rw [scan_min_append, scan_min_append]

/-- C5: the tie-break.  First, for every offers payload, phase 1 of
`_parse_offers_response` computes the global minimum of the landed prices of
the condition-"new" candidates across all three price collections: it
returns `none` exactly when no candidate has a non-negative landed price,
and otherwise an attained landed price that lower-bounds every non-negative
candidate.  Second, on the spec's example — candidates 19.99 "new",
17.50 "used", 19.99 "new" buy-box, filtered to "new" — the minimum landed
price is 19.99 and the selected offer is the buy-box one (seller B). -/
theorem price_tie_break :
    (∀ payload : OffersPayload,
        match min_price_scan payload with
        | none => ∀ l ∈ new_landed_candidates payload, ¬ 0 ≤ l
        | some mc =>
            0 ≤ mc.1 ∧ mc.1 ∈ new_landed_candidates payload ∧
              ∀ l ∈ new_landed_candidates payload, 0 ≤ l → mc.1 ≤ l) ∧
      _parse_offers_response "B07TEST" example_payload
        = { min_price := some (1999 / 100), currency := some "EUR",
            cheapest_offer :=
              some (some "https://www.amazon.de/dp/B07TEST?m=B") } := by
  constructor
  · intro payload
    have hspec := scan_min_spec
        (price_entry_cands payload.LowestPrices
          ++ price_entry_cands payload.BuyBoxPrices
          ++ offer_cands payload.Offers) none (by intro m0 h; cases h)
    have hcand : new_landed_candidates payload
        = (price_entry_cands payload.LowestPrices
            ++ price_entry_cands payload.BuyBoxPrices
            ++ offer_cands payload.Offers).map Prod.fst := by
      simp [new_landed_candidates]
    rw [min_price_scan_eq_concat]
    cases hscan : scan_min
        (price_entry_cands payload.LowestPrices
          ++ price_entry_cands payload.BuyBoxPrices
          ++ offer_cands payload.Offers) none with
    | none =>
      rw [hscan] at hspec
      intro l hl
      rw [hcand] at hl
      obtain ⟨q, hq, rfl⟩ := List.mem_map.mp hl
      exact hspec.2 q hq
    | some mc =>
      rw [hscan] at hspec
      obtain ⟨h0, hmem, hmin, _⟩ := hspec
      rcases hmem with hm | hm
      · refine ⟨h0, ?_, ?_⟩
        · rw [hcand]
          exact List.mem_map_of_mem Prod.fst hm
        · intro l hl hl0
          rw [hcand] at hl
          obtain ⟨q, hq, rfl⟩ := List.mem_map.mp hl
          exact hmin q hq hl0
      · cases hm
  · norm_num [_parse_offers_response, min_price_scan, offer_cands,
      price_entry_cands, scan_min, scan_better, landed, first_pass,
      second_pass, offer_url, tolerance, py_round2, round_half_even,
      example_payload, example_offer_plain, example_offer_used,
      example_offer_buybox, List.filter, round_eq]
    decide

end Scriptify
